import Mathlib

/-!
# Verification of the mcp-multi-jira session/credential core

Shallow embedding of the session and credential lifecycle of the
mcp-multi-jira gateway: the token store status query
(`src/security/token-store.ts`), the OAuth refresh flow
(`src/oauth/atlassian.ts` and the `RemoteSession` class in
`src/mcp/sessionManager.ts`), the request router's schema rewrite and
dispatch (`src/mcp/server.ts`), the session manager's bulk connect and
background-refresh scheduler, and the single-flight memoization of
token loads and refreshes.

Timestamps are modelled as integers (JS `Date.now()` milliseconds),
strings as Lean `String`, and JS truthiness of optional strings via
`strTruthy`.  Asynchronous flows are embedded as pure functions that
thread an explicit state (`FlowSt`) recording the store reads consumed,
the token exchanges performed and the store writes issued, so that
theorems can count side effects.  Concurrency claims are settled over
small labelled transition systems whose atomic steps are the
synchronous sections of the single-threaded JS event loop.
-/

namespace MCPJira

/-- `TokenSet` from `src/types.ts`.  `refreshToken` is optional in the
source (`refreshToken?: string`); `refreshInvalid` is an optional
boolean, absent meaning false. -/
structure TokenSet where
  accessToken : String
  refreshToken : Option String := none
  refreshInvalid : Bool := false
  expiresAt : Int
  deriving Repr, DecidableEq

/-- JS truthiness of an optional string field: `undefined` and the empty
string are falsy. -/
def strTruthy : Option String → Option String
  | none => none
  | some s => if s = "" then none else some s

/-- The three token store backends (`TokenStoreKind` in `src/types.ts`). -/
inductive TokenStoreKind
  | encrypted
  | plain
  | keychain
  deriving Repr, DecidableEq

/-- The status component of `AuthStatus` from `src/types.ts`. -/
inductive AuthStatusKind
  | ok
  | missing
  | expired
  | invalid
  | locked
  deriving Repr, DecidableEq

/-- `getAuthStatusForAlias` from `src/security/token-store.ts`.

The source first returns `locked` when the store kind is `encrypted`,
prompting is not allowed and `MCP_JIRA_TOKEN_PASSWORD` is unset; then it
reads the store (`envPasswordSet` models
`process.env[TOKEN_ENV] !== undefined`, `stored` the result of
`tokenStore.get(alias)`, `now` the value of `Date.now()`). -/
def getAuthStatusForAlias (storeKind : TokenStoreKind) (allowPrompt : Bool)
    (envPasswordSet : Bool) (stored : Option TokenSet) (now : Int) :
    AuthStatusKind :=
  if storeKind = .encrypted ∧ ¬allowPrompt ∧ ¬envPasswordSet then
    .locked
  else
    match stored with
    | none => .missing
    | some tokens =>
      if tokens.refreshInvalid then .invalid
      else if tokens.expiresAt < now ∧ strTruthy tokens.refreshToken = none then
        .expired
      else .ok

/-- `tokenNeedsRefresh` from the `RemoteSession` class
(`src/mcp/sessionManager.ts`): true when no token set is cached, or the
cached expiry is within five minutes of now. -/
def tokenNeedsRefresh (cached : Option TokenSet) (now : Int) : Bool :=
  match cached with
  | none => true
  | some tokens => tokens.expiresAt < now + 5 * 60 * 1000

/-! ## The refresh flow

The refresh flow of `RemoteSession` (in `src/mcp/sessionManager.ts`)
together with `refreshTokensIfNeeded` (in `src/oauth/atlassian.ts`) is
embedded as pure functions threading a `FlowSt`.  Each call to
`tokenStore.get` consumes the head of `readsLeft` (so the successive
values the credential store yields are part of the input, allowing
another process to replace a token set between reads); each refresh-token
exchange appends the refresh token used to `exchangesMade`; each call to
`tokenStore.set` appends the written token set to `writes`; `cached`
is the session's `this.tokens` field. -/

/-- Outcome of one refresh-token exchange at the upstream authorization
server, as classified by `isInvalidGrantError` in
`src/oauth/atlassian.ts`: a new token set (built by `toTokenSet`, which
never sets `refreshInvalid`), an invalid-grant rejection, or any error
of another class. -/
inductive ExchangeResult
  | success (t : TokenSet)
  | invalidGrant
  | otherError (msg : String)
  deriving Repr, DecidableEq

/-- The environment of a refresh flow: the upstream exchange oracle
(deterministic per refresh-token value) and the current time. -/
structure Env where
  exchange : String → ExchangeResult
  now : Int

/-- Mutable state threaded through the flow; see the section comment. -/
structure FlowSt where
  readsLeft : List (Option TokenSet)
  cached : Option TokenSet
  exchangesMade : List String := []
  writes : List TokenSet := []
  deriving Repr, DecidableEq

/-- The errors the embedded flows can raise, one constructor per
`throw new Error(...)` site.  `isInvalidGrantError` holds exactly for
`invalidGrant` (the other messages never mention an invalid grant). -/
inductive RErr
  | missingStored
  | noRefreshToken
  | invalidGrant
  | other (msg : String)
  | reloginRequired
  | noTokensForAccount
  | missingTokens
  | expiredNoRefresh
  | expiredInvalidRefresh
  deriving Repr, DecidableEq

/-- `isInvalidGrantError` from `src/oauth/atlassian.ts`, on the error
values of the embedding. -/
def isInvalidGrantError : RErr → Bool
  | .invalidGrant => true
  | _ => false

/-- One `tokenStore.get` call: consume the next scheduled store value
(`none` when the schedule is exhausted). -/
def storeGet (st : FlowSt) : Option TokenSet × FlowSt :=
  match st.readsLeft with
  | [] => (none, st)
  | r :: rest => (r, { st with readsLeft := rest })

/-- `refreshTokensIfNeeded` from `src/oauth/atlassian.ts`: read the
stored token set; fail when absent; return it unchanged when its expiry
is more than five minutes away; fail when it has no (truthy) refresh
token; otherwise exchange the refresh token and, on success, persist and
return the new token set. -/
def refreshTokensIfNeeded (env : Env) (st : FlowSt) :
    Except RErr TokenSet × FlowSt :=
  match storeGet st with
  | (none, st) => (.error .missingStored, st)
  | (some existing, st) =>
    if existing.expiresAt > env.now + 5 * 60 * 1000 then (.ok existing, st)
    else
      match strTruthy existing.refreshToken with
      | none => (.error .noRefreshToken, st)
      | some rt =>
        match env.exchange rt with
        | .success t =>
          (.ok t, { st with exchangesMade := st.exchangesMade ++ [rt],
                            writes := st.writes ++ [t] })
        | .invalidGrant =>
          (.error .invalidGrant,
            { st with exchangesMade := st.exchangesMade ++ [rt] })
        | .otherError m =>
          (.error (.other m),
            { st with exchangesMade := st.exchangesMade ++ [rt] })

/-- `fetchRefreshedTokens` from `RemoteSession`: run
`refreshTokensIfNeeded` and cache the result on success. -/
def fetchRefreshedTokens (env : Env) (st : FlowSt) :
    Except RErr TokenSet × FlowSt :=
  match refreshTokensIfNeeded env st with
  | (.ok t, st) => (.ok t, { st with cached := some t })
  | (.error e, st) => (.error e, st)

/-- `markRefreshTokenInvalid` from `RemoteSession`: when a token set is
cached and not already flagged, persist and cache it with
`refreshInvalid := true`. -/
def markRefreshTokenInvalid (st : FlowSt) : FlowSt :=
  match st.cached with
  | none => st
  | some t =>
    if t.refreshInvalid then st
    else
      let marked := { t with refreshInvalid := true }
      { st with writes := st.writes ++ [marked], cached := some marked }

/-- `retryRefreshAfterReload` from `RemoteSession`: re-read the store
once; give up (returning `none`) when it holds no truthy refresh token
or the same refresh token that was just rejected; otherwise cache the
fresh token set and re-run the refresh, swallowing a second
invalid-grant failure (returning `none`) and propagating any other
error. -/
def retryRefreshAfterReload (env : Env) (prev : Option String)
    (st : FlowSt) : Except RErr (Option TokenSet) × FlowSt :=
  match storeGet st with
  | (none, st) => (.ok none, st)
  | (some latest, st) =>
    match strTruthy latest.refreshToken with
    | none => (.ok none, st)
    | some _ =>
      if latest.refreshToken = prev then (.ok none, st)
      else
        let st := { st with cached := some latest }
        match fetchRefreshedTokens env st with
        | (.ok t, st) => (.ok (some t), st)
        | (.error e, st) =>
          if isInvalidGrantError e then (.ok none, st) else (.error e, st)

/-- `refreshTokensInner` from `RemoteSession`: attempt the refresh; on a
non-invalid-grant failure propagate it; on invalid grant run the
single bounded retry, and when that yields nothing, quarantine the
cached token set and fail with the re-login-required error. -/
def refreshTokensInner (env : Env) (st : FlowSt) :
    Except RErr TokenSet × FlowSt :=
  let prev := st.cached.bind (·.refreshToken)
  match fetchRefreshedTokens env st with
  | (.ok t, st) => (.ok t, st)
  | (.error e, st) =>
    if ¬isInvalidGrantError e then (.error e, st)
    else
      match retryRefreshAfterReload env prev st with
      | (.ok (some t), st) => (.ok t, st)
      | (.ok none, st) => (.error .reloginRequired, markRefreshTokenInvalid st)
      | (.error e2, st) => (.error e2, st)

/-- `loadTokens` from `RemoteSession`: read the store and cache the
result, failing when the alias has no stored token set. -/
def loadTokens (st : FlowSt) : Except RErr Unit × FlowSt :=
  match storeGet st with
  | (none, st) => (.error .noTokensForAccount, st)
  | (some t, st) => (.ok (), { st with cached := some t })

/-- `ensureTokensLoaded` from `RemoteSession` (sequential view of the
memoized load): a no-op when tokens are cached, otherwise one load. -/
def ensureTokensLoaded (st : FlowSt) : Except RErr Unit × FlowSt :=
  match st.cached with
  | some _ => (.ok (), st)
  | none => loadTokens st

/-- `ensureValidTokens` from `RemoteSession`: load tokens; when the
cached set is quarantined (`refreshInvalid`) use it until expiry and
fail with the expired-and-invalid error afterwards, never refreshing;
otherwise refresh within the five-minute window, propagating the
failure when the token has already expired and swallowing it (keeping
the still-valid access token) when it has not. -/
def ensureValidTokens (env : Env) (st : FlowSt) :
    Except RErr Unit × FlowSt :=
  match ensureTokensLoaded st with
  | (.error e, st) => (.error e, st)
  | (.ok _, st) =>
    match st.cached with
    | none => (.error .missingTokens, st)
    | some t =>
      if t.refreshInvalid then
        if t.expiresAt > env.now then (.ok (), st)
        else (.error .expiredInvalidRefresh, st)
      else if ¬tokenNeedsRefresh (some t) env.now then (.ok (), st)
      else if strTruthy t.refreshToken = none then
        (.error .expiredNoRefresh, st)
      else if t.expiresAt ≤ env.now then
        match refreshTokensInner env st with
        | (.ok _, st) => (.ok (), st)
        | (.error e, st) => (.error e, st)
      else
        match refreshTokensInner env st with
        | (_, st) => (.ok (), st)

/-- `refreshTokensInBackground` from `RemoteSession`: best-effort
refresh used by the scheduler; a no-op when the cached set is
quarantined, still fresh, or has no refresh token; a refresh failure is
swallowed while the access token is still valid and propagated once it
has expired. -/
def refreshTokensInBackground (env : Env) (st : FlowSt) :
    Except RErr Unit × FlowSt :=
  match ensureTokensLoaded st with
  | (.error e, st) => (.error e, st)
  | (.ok _, st) =>
    match st.cached with
    | none => (.error .missingTokens, st)
    | some t =>
      if t.refreshInvalid then (.ok (), st)
      else if ¬tokenNeedsRefresh (some t) env.now then (.ok (), st)
      else if strTruthy t.refreshToken = none then (.ok (), st)
      else
        match refreshTokensInner env st with
        | (.ok _, st) => (.ok (), st)
        | (.error e, st') =>
          match st'.cached with
          | none => (.error e, st')
          | some t2 =>
            if t2.expiresAt > env.now then (.ok (), st') else (.error e, st')

/-! ## The request router (`src/mcp/server.ts`)

Parameter schemas are modelled by their property-name list and
required-name list; argument records by association lists from
parameter name to an (opaque) string value. -/

/-- The declared parameter schema of an upstream capability
(`ToolInputSchema` in `src/mcp/server.ts`). -/
structure ToolInputSchema where
  properties : List String
  required : List String
  deriving Repr, DecidableEq

/-- `sanitizeInputSchema` from `src/mcp/server.ts`: drop the `cloudId`
property and filter `cloudId` out of the required list. -/
def sanitizeInputSchema (s : ToolInputSchema) : ToolInputSchema :=
  { properties := s.properties.filter (· ≠ "cloudId"),
    required := s.required.filter (· ≠ "cloudId") }

/-- `buildToolSchema` from `src/mcp/server.ts`: the router-exposed
schema is the sanitized upstream schema with a required `account` field
merged in (`{ ...shape, account: accountField }` on a `z.object`, where
the `account` field is a non-optional string). -/
def buildToolSchema (s : ToolInputSchema) : ToolInputSchema :=
  let base := sanitizeInputSchema s
  { properties := base.properties.filter (· ≠ "account") ++ ["account"],
    required := base.required.filter (· ≠ "account") ++ ["account"] }

/-- `AccountConfig` from `src/types.ts` (the fields the router uses). -/
structure AccountConfig where
  «alias» : String
  site : String
  cloudId : String
  deriving Repr, DecidableEq

/-- `applyCloudIdFallback` from `src/mcp/server.ts`: when the upstream
schema requires `cloudId` and the caller supplied none, fill it from the
selected account's configured `cloudId`, skipping the fill when that
value is falsy (empty) or the sentinel `"unknown"`. -/
def applyCloudIdFallback (accounts : List AccountConfig) (account : String)
    (toolRequired : List String) (args : List (String × String)) :
    List (String × String) :=
  if "cloudId" ∈ toolRequired ∧ (args.lookup "cloudId").isNone then
    match accounts.find? (fun a => a.«alias» = account) with
    | some info =>
      if info.cloudId ≠ "" ∧ info.cloudId ≠ "unknown" then
        args ++ [("cloudId", info.cloudId)]
      else args
    | none => args
  else args

/-- Result of the router's per-capability handler before the upstream
call: an argument error, or the argument record handed to
`session.callTool`. -/
inductive HandlerResult
  | errMissingAccount
  | errUnknownAlias (a : String)
  | invoked (upstreamArgs : List (String × String))
  deriving Repr, DecidableEq

/-- The dispatch prefix of the handler built by `createToolHandler` in
`src/mcp/server.ts`: split the `account` selector out of the arguments
(failing when absent or falsy), resolve the session for that alias
(the session manager holds one session per configured account), apply
the cloud-id fallback, and invoke upstream with the remaining
arguments. -/
def toolHandlerDispatch (accounts : List AccountConfig)
    (toolRequired : List String) (args : List (String × String)) :
    HandlerResult :=
  let acct := args.lookup "account"
  let rest := args.filter (fun kv => kv.1 ≠ "account")
  match acct with
  | none => .errMissingAccount
  | some a =>
    if a = "" then .errMissingAccount
    else
      match accounts.find? (fun c => c.«alias» = a) with
      | none => .errUnknownAlias a
      | some _ => .invoked (applyCloudIdFallback accounts a toolRequired rest)

/-! ## Invocation retry on authorization failure (`RemoteSession.callTool`) -/

/-- A thrown JS error as observed by `shouldRefreshOnError`: either an
object with an optional numeric `code` and a `String(err)` rendering, or
a non-object (primitive) value. -/
inductive JsErr
  | obj (code : Option Int) (text : String)
  | prim (text : String)
  deriving Repr, DecidableEq

/-- Substring test on character lists, used to embed
`String.prototype.includes`. -/
def charsContain (needle : List Char) : List Char → Bool
  | [] => needle.isEmpty
  | c :: rest => needle.isPrefixOf (c :: rest) || charsContain needle rest

/-- `hay.includes(needle)` on strings. -/
def strContains (hay needle : String) : Bool :=
  charsContain needle.data hay.data

/-- `shouldRefreshOnError` from `RemoteSession`
(`src/mcp/sessionManager.ts`): false for non-object errors; true for an
object error whose `code` is 401 or 403 or whose lower-cased rendering
contains `"unauthorized"` or `"forbidden"`. -/
def shouldRefreshOnError : JsErr → Bool
  | .prim _ => false
  | .obj code text =>
    if code = some 401 ∨ code = some 403 then true
    else
      strContains text.toLower "unauthorized" ∨
        strContains text.toLower "forbidden"

/-- Outcome of one upstream `client.callTool` attempt; the payload is an
opaque result value. -/
inductive AttemptResult
  | ok (v : Nat)
  | err (e : JsErr)
  deriving Repr, DecidableEq

/-- Trace of one `RemoteSession.callTool` invocation: its final result,
the number of reconnects performed, and the number of upstream
invocation attempts. -/
structure CallToolTrace where
  result : Except JsErr Nat
  reconnects : Nat
  attempts : Nat
  deriving Repr

/-- The queued body of `RemoteSession.callTool`: try the invocation; on
an error matching `shouldRefreshOnError`, run `refreshAndReconnect`
(whose own failure propagates) and retry the invocation exactly once,
returning the retry's outcome; on any other error, rethrow it
unchanged. -/
def callToolFlow (attempt1 : AttemptResult) (reconnect : Except JsErr Unit)
    (attempt2 : AttemptResult) : CallToolTrace :=
  match attempt1 with
  | .ok v => ⟨.ok v, 0, 1⟩
  | .err e =>
    if shouldRefreshOnError e then
      match reconnect with
      | .error re => ⟨.error re, 0, 1⟩
      | .ok _ =>
        match attempt2 with
        | .ok v => ⟨.ok v, 1, 2⟩
        | .err e2 => ⟨.error e2, 1, 2⟩
    else ⟨.error e, 0, 1⟩

/-! ## The background refresh scheduler (`SessionManager`)

`startBackgroundRefresh` / `stopBackgroundRefresh` build a
self-rescheduling `setTimeout` loop guarded by the fields
`backgroundRefreshTimer`, `backgroundRefreshRunning` and
`backgroundRefreshStopped`.  The loop is embedded as a labelled
transition system whose atomic steps are the synchronous sections of the
source: a `startBackgroundRefresh` call, the firing of the pending
timeout (which queues the `run` callback), the synchronous prefix of
`run` (its `stopped`/`running` checks and either rescheduling or
starting a tick), the completion of a tick (the `finally` block), and a
`stopBackgroundRefresh` call.  `active` counts the ticks currently
executing and `started` the ticks ever started. -/

/-- Scheduler state.  `timerSet` is `backgroundRefreshTimer !== null`
(the source never nulls the handle when the timeout fires, only
`stopBackgroundRefresh` does); `timerPending` holds while a scheduled
timeout has not yet fired; `queuedRun` holds between the firing of the
timeout and the execution of the `run` callback. -/
structure SchedState where
  timerSet : Bool
  timerPending : Bool
  queuedRun : Bool
  running : Bool
  stopped : Bool
  active : Nat
  started : Nat
  deriving Repr, DecidableEq

/-- The scheduler before `startBackgroundRefresh` is first called. -/
def schedInit : SchedState :=
  ⟨false, false, false, false, false, 0, 0⟩

/-- Scheduler events (the atomic synchronous sections listed above). -/
inductive SchedEvent
  | start (intervalMs : Int)
  | timerFires
  | runCallback
  | tickCompletes
  | stop
  deriving Repr, DecidableEq

/-- `schedule(delay)` from `startBackgroundRefresh`: set a timeout and
store its handle. -/
def schedSchedule (s : SchedState) : SchedState :=
  { s with timerSet := true, timerPending := true }

/-- One atomic step of the scheduler, mirroring
`startBackgroundRefresh`, the `run` closure and `stopBackgroundRefresh`
in `SessionManager`.  Events whose enabling condition does not hold
(e.g. a timer firing when none is pending) leave the state unchanged. -/
def schedStep (s : SchedState) : SchedEvent → SchedState
  | .start intervalMs =>
    if s.timerSet then s
    else if intervalMs ≤ 0 then s
    else schedSchedule { s with stopped := false }
  | .timerFires =>
    if s.timerPending then
      { s with timerPending := false, queuedRun := true }
    else s
  | .runCallback =>
    if s.queuedRun then
      let s := { s with queuedRun := false }
      if s.stopped then s
      else if s.running then schedSchedule s
      else { s with running := true, active := s.active + 1,
                    started := s.started + 1 }
    else s
  | .tickCompletes =>
    if s.running then
      schedSchedule { s with running := false, active := s.active - 1 }
    else s
  | .stop =>
    { s with stopped := true, timerSet := false, timerPending := false }

/-- Run the scheduler over a sequence of events. -/
def schedRun (s : SchedState) (events : List SchedEvent) : SchedState :=
  events.foldl schedStep s

/-! ## Bulk connect (`SessionManager.connectAll`) -/

/-- One configured account as `connectAll` observes it: its auth status
and whether its `session.connect()` call would succeed. -/
structure AccountConn where
  «alias» : String
  status : AuthStatusKind
  connectOk : Bool
  deriving Repr, DecidableEq

/-- Per-account outcome of `connectAll`: skipped with a warning when the
auth status is not `ok`; otherwise connected, or failed with the
rejection logged. -/
inductive ConnectOutcome
  | connected
  | skipped (status : AuthStatusKind)
  | failed
  deriving Repr, DecidableEq

/-- The per-session closure inside `connectAll`'s
`Promise.allSettled`. -/
def connectOne (a : AccountConn) : ConnectOutcome :=
  if a.status ≠ .ok then .skipped a.status
  else if a.connectOk then .connected
  else .failed

/-- `connectAll` from `SessionManager`: every session's closure runs
under `Promise.allSettled`, so each account's outcome is computed
independently and a rejection is recorded, never propagated. -/
def connectAll (accounts : List AccountConn) : List ConnectOutcome :=
  accounts.map connectOne

/-! ## Single-flight memoization (`loadPromise` / `refreshPromise`)

`ensureTokensLoaded` memoizes the in-flight store read in
`loadPromise`, and `refreshTokens` memoizes the in-flight exchange in
`refreshPromise`; both clear the handle in a `.finally` after the
operation settles.  The machine below embeds both: an `arrive` event is
the synchronous section of one caller entering the method (atomic on
the single-threaded event loop), and a `settle` event is the underlying
operation completing and its `.finally` running.  `checkCache` is true
for the load path, whose callers return immediately when `this.tokens`
is already set.  `ops` counts the underlying operations started (store
reads for the load path, token exchanges for the refresh path);
`waiters` the callers attached to the current in-flight promise, all of
whom observe that one promise's single outcome. -/

/-- Single-flight machine state. -/
structure SFState where
  cachedSome : Bool
  inFlight : Bool
  ops : Nat
  waiters : Nat
  deriving Repr, DecidableEq

/-- State before any caller: nothing cached, nothing in flight. -/
def sfInit : SFState := ⟨false, false, 0, 0⟩

/-- Single-flight events: a caller arriving, or the in-flight operation
settling (successfully or not). -/
inductive SFEvent
  | arrive
  | settle (success : Bool)
  deriving Repr, DecidableEq

/-- One atomic step of the memoization: an arriving caller returns at
once when `checkCache` applies, attaches to an existing in-flight
promise when there is one, and otherwise starts the single underlying
operation; settling delivers the one shared outcome to every waiter and
only then clears the in-flight handle (the `.finally`). -/
def sfStep (checkCache : Bool) (s : SFState) : SFEvent → SFState
  | .arrive =>
    if checkCache ∧ s.cachedSome then s
    else if s.inFlight then { s with waiters := s.waiters + 1 }
    else { s with inFlight := true, ops := s.ops + 1,
                  waiters := s.waiters + 1 }
  | .settle success =>
    if s.inFlight then
      { cachedSome := success || s.cachedSome, inFlight := false,
        ops := s.ops, waiters := 0 }
    else s

/-- Run the single-flight machine over a sequence of events. -/
def sfRun (checkCache : Bool) (s : SFState) (events : List SFEvent) :
    SFState :=
  events.foldl (sfStep checkCache) s

/-! ## Theorems -/

/-- The `locked` guard of `getAuthStatusForAlias`, named for reuse in
statements. -/
def lockedCond (storeKind : TokenStoreKind) (allowPrompt envPasswordSet : Bool) :
    Prop :=
  storeKind = .encrypted ∧ ¬allowPrompt ∧ ¬envPasswordSet

instance (k : TokenStoreKind) (p e : Bool) : Decidable (lockedCond k p e) := by
  unfold lockedCond
  infer_instance

/-- Full case analysis of `getAuthStatusForAlias`, shared by the
status-related theorems. -/
theorem getAuthStatus_cases (storeKind : TokenStoreKind)
    (allowPrompt envPasswordSet : Bool) (stored : Option TokenSet) (now : Int) :
    (getAuthStatusForAlias storeKind allowPrompt envPasswordSet stored now
        = .locked ↔ lockedCond storeKind allowPrompt envPasswordSet) ∧
    (getAuthStatusForAlias storeKind allowPrompt envPasswordSet stored now
        = .missing ↔
      ¬lockedCond storeKind allowPrompt envPasswordSet ∧ stored = none) ∧
    (getAuthStatusForAlias storeKind allowPrompt envPasswordSet stored now
        = .invalid ↔
      ¬lockedCond storeKind allowPrompt envPasswordSet ∧
        ∃ t, stored = some t ∧ t.refreshInvalid = true) ∧
    (getAuthStatusForAlias storeKind allowPrompt envPasswordSet stored now
        = .expired ↔
      ¬lockedCond storeKind allowPrompt envPasswordSet ∧
        ∃ t, stored = some t ∧ t.refreshInvalid = false ∧
          t.expiresAt < now ∧ strTruthy t.refreshToken = none) ∧
    (getAuthStatusForAlias storeKind allowPrompt envPasswordSet stored now
        = .ok ↔
      ¬lockedCond storeKind allowPrompt envPasswordSet ∧
        ∃ t, stored = some t ∧ t.refreshInvalid = false ∧
          ¬(t.expiresAt < now ∧ strTruthy t.refreshToken = none)) := by
  by_cases hL : lockedCond storeKind allowPrompt envPasswordSet
  · have hL' : storeKind = .encrypted ∧ ¬allowPrompt ∧ ¬envPasswordSet := hL
    simp only [getAuthStatusForAlias, if_pos hL']
    simp [hL]
  · have hL' : ¬(storeKind = .encrypted ∧ ¬allowPrompt ∧ ¬envPasswordSet) := hL
    simp only [getAuthStatusForAlias, if_neg hL']
    cases stored with
    | none => simp [hL]
    | some t =>
      by_cases hInv : t.refreshInvalid
      · simp [hInv, hL]
      · by_cases hExp : t.expiresAt < now ∧ strTruthy t.refreshToken = none
        · simp [hInv, hExp, hL]
        · simp [hInv, hExp, hL]
          tauto

/-- C4: `getAuthStatusForAlias` returns exactly one of the five
statuses, decided purely from the stored token set with no token
exchange (the definition takes only the stored value and the clock):
`locked` exactly when the backend is the encrypted store, prompting is
not allowed and no master-password environment variable is set;
otherwise `missing` exactly when nothing is stored; otherwise `invalid`
exactly when the `refreshInvalid` flag is set; otherwise `expired`
exactly when the expiry is past and no (truthy) refresh token is
present; otherwise `ok`. -/
theorem c4_auth_status_characterization (storeKind : TokenStoreKind)
    (allowPrompt envPasswordSet : Bool) (stored : Option TokenSet) (now : Int) :
    (getAuthStatusForAlias storeKind allowPrompt envPasswordSet stored now
        = .locked ↔ lockedCond storeKind allowPrompt envPasswordSet) ∧
    (getAuthStatusForAlias storeKind allowPrompt envPasswordSet stored now
        = .missing ↔
      ¬lockedCond storeKind allowPrompt envPasswordSet ∧ stored = none) ∧
    (getAuthStatusForAlias storeKind allowPrompt envPasswordSet stored now
        = .invalid ↔
      ¬lockedCond storeKind allowPrompt envPasswordSet ∧
        ∃ t, stored = some t ∧ t.refreshInvalid = true) ∧
    (getAuthStatusForAlias storeKind allowPrompt envPasswordSet stored now
        = .expired ↔
      ¬lockedCond storeKind allowPrompt envPasswordSet ∧
        ∃ t, stored = some t ∧ t.refreshInvalid = false ∧
          t.expiresAt < now ∧ strTruthy t.refreshToken = none) ∧
    (getAuthStatusForAlias storeKind allowPrompt envPasswordSet stored now
        = .ok ↔
      ¬lockedCond storeKind allowPrompt envPasswordSet ∧
        ∃ t, stored = some t ∧ t.refreshInvalid = false ∧
          ¬(t.expiresAt < now ∧ strTruthy t.refreshToken = none)) :=
  getAuthStatus_cases storeKind allowPrompt envPasswordSet stored now

/-- C10: when the stored token set's expiry is already past but a
(truthy) refresh token is present and the `refreshInvalid` flag is
unset, `getAuthStatusForAlias` returns `ok`, not `expired`; `expired`
is returned only when the expiry is past and no truthy refresh token is
present. -/
theorem c10_expired_requires_no_refresh_token (storeKind : TokenStoreKind)
    (allowPrompt envPasswordSet : Bool) (t : TokenSet) (now : Int)
    (hL : ¬lockedCond storeKind allowPrompt envPasswordSet) :
    (t.expiresAt < now → strTruthy t.refreshToken ≠ none →
      t.refreshInvalid = false →
      getAuthStatusForAlias storeKind allowPrompt envPasswordSet (some t) now
        = .ok) ∧
    (getAuthStatusForAlias storeKind allowPrompt envPasswordSet (some t) now
        = .expired →
      t.expiresAt < now ∧ strTruthy t.refreshToken = none) := by
  have h := getAuthStatus_cases storeKind allowPrompt
    envPasswordSet (some t) now
  constructor
  · intro hPast hRt hInv
    rw [h.2.2.2.2]
    exact ⟨hL, t, rfl, hInv, fun hc => hRt hc.2⟩
  · intro hExp
    obtain ⟨-, t', ht', -, hPast, hNone⟩ := (h.2.2.2.1).mp hExp
    cases Option.some.inj ht'
    exact ⟨hPast, hNone⟩

/-- C10 witness: the theorem applied at a concrete expired-but-
refreshable token set. -/
theorem c10_expired_requires_no_refresh_token_witness :
    getAuthStatusForAlias .plain false false
      (some ⟨"a", some "r", false, 0⟩) 10 = .ok :=
  (c10_expired_requires_no_refresh_token .plain false false
    ⟨"a", some "r", false, 0⟩ 10 (by decide)).1
    (by decide) (by decide) rfl

/-- C5: a cached token set needs refresh exactly when nothing is cached
yet or its expiry is within the fixed five-minute look-ahead window of
now; and `refreshTokensIfNeeded` returns the stored token set
unchanged, performing no exchange and no write, whenever its expiry
lies more than five minutes in the future. -/
theorem c5_refresh_lookahead_window (cached : Option TokenSet) (now : Int)
    (env : Env) (t : TokenSet) (rest : List (Option TokenSet)) (st : FlowSt)
    (hRead : st.readsLeft = some t :: rest)
    (hFresh : t.expiresAt > env.now + 5 * 60 * 1000) :
    (tokenNeedsRefresh cached now = true ↔
      cached = none ∨
        ∃ ts, cached = some ts ∧ ts.expiresAt < now + 5 * 60 * 1000) ∧
    refreshTokensIfNeeded env st = (.ok t, { st with readsLeft := rest }) := by
  constructor
  · cases cached with
    | none => simp [tokenNeedsRefresh]
    | some ts => simp [tokenNeedsRefresh]
  · have hF : env.now + 300000 < t.expiresAt := by omega
    unfold refreshTokensIfNeeded storeGet
    rw [hRead]
    simp [hF]

/-- C5 witness: the theorem applied at a token set expiring well in the
future. -/
theorem c5_refresh_lookahead_window_witness :
    refreshTokensIfNeeded ⟨fun _ => .invalidGrant, 0⟩
        ⟨[some ⟨"a", some "r", false, 10000000⟩], none, [], []⟩
      = (.ok ⟨"a", some "r", false, 10000000⟩,
          { readsLeft := [], cached := none, exchangesMade := [],
            writes := [] }) :=
  (c5_refresh_lookahead_window none 0 ⟨fun _ => .invalidGrant, 0⟩
    ⟨"a", some "r", false, 10000000⟩ []
    ⟨[some ⟨"a", some "r", false, 10000000⟩], none, [], []⟩
    rfl (by decide)).2

/-- C6: once the stored token set carries `refreshInvalid = true`, no
session operation uses its refresh token in another exchange: the
connect/reconnect path (`ensureValidTokens`, called by `connect` and by
`refreshAndReconnect`) performs no exchange whether the flagged set is
already cached or freshly loaded from the store, succeeds exactly while
the expiry is in the future, and fails with the re-login
(`expiredInvalidRefresh`) error once expired; the background refresh
(`refreshTokensInBackground`) performs no exchange and returns
successfully. -/
theorem c6_quarantine_blocks_all_refreshes (env : Env) (t : TokenSet)
    (st : FlowSt) (rest : List (Option TokenSet))
    (hInv : t.refreshInvalid = true) :
    (st.cached = some t →
      ((ensureValidTokens env st).2.exchangesMade = st.exchangesMade ∧
        (t.expiresAt > env.now → ensureValidTokens env st = (.ok (), st)) ∧
        (t.expiresAt ≤ env.now →
          ensureValidTokens env st = (.error .expiredInvalidRefresh, st)))) ∧
    (st.cached = none → st.readsLeft = some t :: rest →
      ((ensureValidTokens env st).2.exchangesMade = st.exchangesMade ∧
        (t.expiresAt > env.now →
          ensureValidTokens env st =
            (.ok (), { st with readsLeft := rest, cached := some t })) ∧
        (t.expiresAt ≤ env.now →
          ensureValidTokens env st =
            (.error .expiredInvalidRefresh,
              { st with readsLeft := rest, cached := some t })))) ∧
    (st.cached = some t →
      (refreshTokensInBackground env st).2.exchangesMade = st.exchangesMade ∧
        refreshTokensInBackground env st = (.ok (), st)) := by
  refine ⟨?_, ?_, ?_⟩
  · intro hc
    unfold ensureValidTokens ensureTokensLoaded
    by_cases hE : t.expiresAt > env.now
    · simp [hInv, hE, hc]
    · simp [hInv, hE, hc]
  · intro hc hr
    unfold ensureValidTokens ensureTokensLoaded loadTokens storeGet
    by_cases hE : t.expiresAt > env.now
    · simp [hInv, hE, hc, hr]
    · simp [hInv, hE, hc, hr]
  · intro hc
    unfold refreshTokensInBackground ensureTokensLoaded
    simp [hInv, hc]

/-- C6 witness: the theorem applied to a quarantined token set, cached
and still unexpired. -/
theorem c6_quarantine_blocks_all_refreshes_witness :
    ensureValidTokens ⟨fun _ => .invalidGrant, 50⟩
        ⟨[], some ⟨"a", some "r", true, 100⟩, [], []⟩
      = (.ok (), ⟨[], some ⟨"a", some "r", true, 100⟩, [], []⟩) :=
  ((c6_quarantine_blocks_all_refreshes ⟨fun _ => .invalidGrant, 50⟩
      ⟨"a", some "r", true, 100⟩
      ⟨[], some ⟨"a", some "r", true, 100⟩, [], []⟩ [] rfl).1
    rfl).2.1 (by decide)

/-- C1 counterexample: with the cached/stored token set holding refresh
token `"r0"` (rejected with invalid grant) and the re-read store
yielding a token set with the differing refresh token `"r1"` whose
expiry is far in the future, `refreshTokensInner` performs no retry
exchange at all — the only exchange ever made uses `"r0"` — and instead
returns the freshly read token set directly, because the re-run refresh
flow short-circuits on a token more than five minutes from expiry.  The
claim, which requires the exchange to be retried exactly once whenever
the freshly read token differs, is therefore false at this input. -/
theorem c1_counterexample_no_retry_exchange :
    (some "r1" : Option String) ≠ some "r0" ∧
    (refreshTokensInner
        ⟨fun r => if r = "r0" then .invalidGrant else .otherError "boom", 1000⟩
        ⟨[some ⟨"a0", some "r0", false, 0⟩,
          some ⟨"a1", some "r1", false, 1000000000⟩,
          some ⟨"a1", some "r1", false, 1000000000⟩],
         some ⟨"a0", some "r0", false, 0⟩, [], []⟩).2.exchangesMade
      = ["r0"] ∧
    (refreshTokensInner
        ⟨fun r => if r = "r0" then .invalidGrant else .otherError "boom", 1000⟩
        ⟨[some ⟨"a0", some "r0", false, 0⟩,
          some ⟨"a1", some "r1", false, 1000000000⟩,
          some ⟨"a1", some "r1", false, 1000000000⟩],
         some ⟨"a0", some "r0", false, 0⟩, [], []⟩).1
      = .ok ⟨"a1", some "r1", false, 1000000000⟩ := by
  refine ⟨by decide, by decide, rfl⟩

/-- C1 (amended): on an invalid-grant failure of the first exchange,
`refreshTokensInner` re-reads the store once and re-runs the refresh
flow at most once — exactly when the freshly read token set carries a
truthy refresh token differing from the cached one just rejected.  The
re-run (which itself re-reads the store) performs a second exchange only
when the freshly read token set still needs refresh; a token set more
than five minutes from expiry is returned directly as the success
result with no second exchange.  When no differing token exists, or the
re-run fails with invalid grant, the cached token set is persisted with
`refreshInvalid := true` and the call fails with the re-login-required
error; a non-invalid-grant error of the first attempt or of the re-run
propagates unchanged and never sets the flag. -/
theorem c1_invalid_grant_bounded_retry (env : Env) (t0 t1 l : TokenSet)
    (r0 r1 m : String) (rest : List (Option TokenSet)) (st : FlowSt)
    (hc : st.cached = some t0)
    (hrt0 : strTruthy t0.refreshToken = some r0)
    (hstale : ¬(t0.expiresAt > env.now + 5 * 60 * 1000))
    (hfl0 : t0.refreshInvalid = false) :
    -- (A1) invalid grant, re-read finds nothing: quarantine.
    (env.exchange r0 = .invalidGrant →
      st.readsLeft = some t0 :: none :: rest →
      refreshTokensInner env st =
        (.error .reloginRequired,
          { readsLeft := rest,
            cached := some { t0 with refreshInvalid := true },
            exchangesMade := st.exchangesMade ++ [r0],
            writes := st.writes ++ [{ t0 with refreshInvalid := true }] })) ∧
    -- (A2) re-read finds a token set without a truthy refresh token.
    (env.exchange r0 = .invalidGrant →
      st.readsLeft = some t0 :: some l :: rest →
      strTruthy l.refreshToken = none →
      refreshTokensInner env st =
        (.error .reloginRequired,
          { readsLeft := rest,
            cached := some { t0 with refreshInvalid := true },
            exchangesMade := st.exchangesMade ++ [r0],
            writes := st.writes ++ [{ t0 with refreshInvalid := true }] })) ∧
    -- (A3) re-read finds the very refresh token just rejected.
    (env.exchange r0 = .invalidGrant →
      st.readsLeft = some t0 :: some l :: rest →
      l.refreshToken = t0.refreshToken →
      refreshTokensInner env st =
        (.error .reloginRequired,
          { readsLeft := rest,
            cached := some { t0 with refreshInvalid := true },
            exchangesMade := st.exchangesMade ++ [r0],
            writes := st.writes ++ [{ t0 with refreshInvalid := true }] })) ∧
    -- (B) differing fresh token, expiry beyond the window: returned
    -- directly, no second exchange.
    (env.exchange r0 = .invalidGrant →
      st.readsLeft = some t0 :: some t1 :: some t1 :: rest →
      strTruthy t1.refreshToken = some r1 →
      t1.refreshToken ≠ t0.refreshToken →
      t1.expiresAt > env.now + 5 * 60 * 1000 →
      refreshTokensInner env st =
        (.ok t1,
          { readsLeft := rest, cached := some t1,
            exchangesMade := st.exchangesMade ++ [r0],
            writes := st.writes })) ∧
    -- (C) differing fresh token still needing refresh: one retry
    -- exchange, whose three outcomes are:
    (env.exchange r0 = .invalidGrant →
      st.readsLeft = some t0 :: some t1 :: some t1 :: rest →
      strTruthy t1.refreshToken = some r1 →
      t1.refreshToken ≠ t0.refreshToken →
      ¬(t1.expiresAt > env.now + 5 * 60 * 1000) →
      t1.refreshInvalid = false →
      (∀ t, env.exchange r1 = .success t →
        refreshTokensInner env st =
          (.ok t,
            { readsLeft := rest, cached := some t,
              exchangesMade := st.exchangesMade ++ [r0, r1],
              writes := st.writes ++ [t] })) ∧
      (env.exchange r1 = .invalidGrant →
        refreshTokensInner env st =
          (.error .reloginRequired,
            { readsLeft := rest,
              cached := some { t1 with refreshInvalid := true },
              exchangesMade := st.exchangesMade ++ [r0, r1],
              writes := st.writes ++ [{ t1 with refreshInvalid := true }] })) ∧
      (env.exchange r1 = .otherError m →
        refreshTokensInner env st =
          (.error (.other m),
            { readsLeft := rest, cached := some t1,
              exchangesMade := st.exchangesMade ++ [r0, r1],
              writes := st.writes }))) ∧
    -- (D) a non-invalid-grant first failure propagates unchanged, with
    -- no re-read, no retry and no quarantine flag.
    (env.exchange r0 = .otherError m →
      st.readsLeft = some t0 :: rest →
      refreshTokensInner env st =
        (.error (.other m),
          { readsLeft := rest, cached := st.cached,
            exchangesMade := st.exchangesMade ++ [r0],
            writes := st.writes })) := by
  have hstaleN : ¬(env.now + 300000 < t0.expiresAt) := by omega
  refine ⟨?_, ?_, ?_, ?_, ?_, ?_⟩
  · intro hx0 hr
    simp [refreshTokensInner, fetchRefreshedTokens, refreshTokensIfNeeded,
      retryRefreshAfterReload, markRefreshTokenInvalid, storeGet,
      isInvalidGrantError, hc, hr, hrt0, hstaleN, hx0, hfl0]
  · intro hx0 hr hl
    simp [refreshTokensInner, fetchRefreshedTokens, refreshTokensIfNeeded,
      retryRefreshAfterReload, markRefreshTokenInvalid, storeGet,
      isInvalidGrantError, hc, hr, hrt0, hstaleN, hx0, hfl0, hl]
  · intro hx0 hr hl
    simp [refreshTokensInner, fetchRefreshedTokens, refreshTokensIfNeeded,
      retryRefreshAfterReload, markRefreshTokenInvalid, storeGet,
      isInvalidGrantError, hc, hr, hrt0, hstaleN, hx0, hfl0, hl]
  · intro hx0 hr hrt1 hne hfresh
    have hfreshN : env.now + 300000 < t1.expiresAt := by omega
    simp [refreshTokensInner, fetchRefreshedTokens, refreshTokensIfNeeded,
      retryRefreshAfterReload, markRefreshTokenInvalid, storeGet,
      isInvalidGrantError, hc, hr, hrt0, hstaleN, hx0, hrt1, hne, hfreshN]
  · intro hx0 hr hrt1 hne hstale1 hfl1
    have hstale1N : ¬(env.now + 300000 < t1.expiresAt) := by omega
    refine ⟨?_, ?_, ?_⟩
    · intro t hx1
      simp [refreshTokensInner, fetchRefreshedTokens, refreshTokensIfNeeded,
        retryRefreshAfterReload, markRefreshTokenInvalid, storeGet,
        isInvalidGrantError, hc, hr, hrt0, hstaleN, hx0, hrt1, hne,
        hstale1N, hx1]
    · intro hx1
      simp [refreshTokensInner, fetchRefreshedTokens, refreshTokensIfNeeded,
        retryRefreshAfterReload, markRefreshTokenInvalid, storeGet,
        isInvalidGrantError, hc, hr, hrt0, hstaleN, hx0, hrt1, hne,
        hstale1N, hx1, hfl1]
    · intro hx1
      simp [refreshTokensInner, fetchRefreshedTokens, refreshTokensIfNeeded,
        retryRefreshAfterReload, markRefreshTokenInvalid, storeGet,
        isInvalidGrantError, hc, hr, hrt0, hstaleN, hx0, hrt1, hne,
        hstale1N, hx1]
  · intro hx0 hr
    simp [refreshTokensInner, fetchRefreshedTokens, refreshTokensIfNeeded,
      retryRefreshAfterReload, markRefreshTokenInvalid, storeGet,
      isInvalidGrantError, hc, hr, hrt0, hstaleN, hx0]

/-- C1 witness: the amended theorem applied at the quarantine scenario
(no fresher token in the store). -/
theorem c1_invalid_grant_bounded_retry_witness :
    refreshTokensInner ⟨fun _ => .invalidGrant, 1000⟩
        ⟨[some ⟨"a0", some "r0", false, 0⟩,
          some ⟨"a0", some "r0", false, 0⟩],
         some ⟨"a0", some "r0", false, 0⟩, [], []⟩
      = (.error .reloginRequired,
          { readsLeft := [],
            cached := some ⟨"a0", some "r0", true, 0⟩,
            exchangesMade := ["r0"],
            writes := [⟨"a0", some "r0", true, 0⟩] }) :=
  (((c1_invalid_grant_bounded_retry ⟨fun _ => .invalidGrant, 1000⟩
      ⟨"a0", some "r0", false, 0⟩ ⟨"a0", some "r0", false, 0⟩
      ⟨"a0", some "r0", false, 0⟩ "r0" "r1" "m" []
      ⟨[some ⟨"a0", some "r0", false, 0⟩,
        some ⟨"a0", some "r0", false, 0⟩],
       some ⟨"a0", some "r0", false, 0⟩, [], []⟩
      rfl (by decide) (by decide) rfl).2.2.1) rfl rfl rfl)

/-- Dropping all pairs with a different key does not change a lookup:
the router's `account` strip never touches the `cloudId` argument. -/
theorem lookup_filter_ne (key other : String) (h : key ≠ other)
    (l : List (String × String)) :
    (l.filter (fun kv => kv.1 ≠ other)).lookup key = l.lookup key := by
  induction l with
  | nil => rfl
  | cons kv tl ih =>
    obtain ⟨k, v⟩ := kv
    simp only [decide_not] at ih
    rw [List.filter_cons]
    by_cases hk : k = other
    · subst hk
      have hb : (key == k) = false := beq_false_of_ne h
      simp [List.lookup, hb, ih]
    · cases h2 : (key == k) with
      | true => simp [hk, List.lookup, h2]
      | false => simp [hk, List.lookup, h2, ih]

/-- A key that looks up to nothing is bound to no value in the list. -/
theorem lookup_none_not_mem (key : String) (l : List (String × String))
    (h : l.lookup key = none) (x : String) : (key, x) ∉ l := by
  induction l with
  | nil => simp
  | cons kv tl ih =>
    obtain ⟨k, v⟩ := kv
    cases h2 : (key == k) with
    | true => simp [List.lookup, h2] at h
    | false =>
      simp only [List.lookup, h2] at h
      have hk : key ≠ k := by
        intro he
        subst he
        simp at h2
      simp [hk, ih h]

/-- C2 counterexample: an account whose configured `cloudId` is the
empty string (which is not the sentinel `"unknown"`) does not get the
cloud-id auto-fill: invoking a capability requiring `cloudId` with no
`cloudId` argument hands the upstream session arguments without any
`cloudId`, because `applyCloudIdFallback` also skips every falsy
(empty) configured value, not only the `"unknown"` sentinel.  The claim
as stated — auto-fill whenever the configured value differs from
`"unknown"` — is therefore false at this input. -/
theorem c2_counterexample_empty_cloud_id :
    ("" : String) ≠ "unknown" ∧
    toolHandlerDispatch [⟨"A", "site", ""⟩] ["cloudId", "query"]
        [("account", "A"), ("query", "x")]
      = .invoked [("query", "x")] := by
  refine ⟨by decide, by decide⟩

/-- C2 (amended): the router-exposed schema of every capability omits
`cloudId` from both the property list and the required list and requires
`account` instead; and invoking a capability whose upstream schema
requires `cloudId`, with an account alias whose configured `cloudId` is
neither empty nor the sentinel `"unknown"` and with no `cloudId`
argument supplied, hands the upstream session the arguments with
`account` removed and `cloudId` auto-filled from that account's
configuration. -/
theorem c2_schema_rewrite_and_cloud_id_fill (s : ToolInputSchema)
    (accounts : List AccountConfig) (a : String) (cfg : AccountConfig)
    (toolRequired : List String) (args : List (String × String))
    (hfind : accounts.find? (fun c => c.«alias» = a) = some cfg)
    (hne : cfg.cloudId ≠ "") (hnu : cfg.cloudId ≠ "unknown")
    (hreq : "cloudId" ∈ toolRequired)
    (hacct : args.lookup "account" = some a) (ha : a ≠ "")
    (hnoarg : (args.lookup "cloudId") = none) :
    "cloudId" ∉ (buildToolSchema s).properties ∧
    "cloudId" ∉ (buildToolSchema s).required ∧
    "account" ∈ (buildToolSchema s).required ∧
    toolHandlerDispatch accounts toolRequired args =
      .invoked ((args.filter (fun kv => kv.1 ≠ "account")) ++
        [("cloudId", cfg.cloudId)]) := by
  refine ⟨?_, ?_, ?_, ?_⟩
  · simp [buildToolSchema, sanitizeInputSchema]
  · simp [buildToolSchema, sanitizeInputSchema]
  · simp [buildToolSchema, sanitizeInputSchema]
  · have hrest : (args.filter (fun kv => kv.1 ≠ "account")).lookup "cloudId"
        = none :=
      (lookup_filter_ne "cloudId" "account" (by decide) args).trans hnoarg
    have hnm : ∀ x, ("cloudId", x) ∉ args :=
      fun x => lookup_none_not_mem "cloudId" args hnoarg x
    unfold toolHandlerDispatch applyCloudIdFallback
    simp [hacct, ha, hfind, hreq, hrest, hnm, hne, hnu]

/-- C2 witness: the amended theorem applied at a two-parameter
capability and an account with a known cloud id. -/
theorem c2_schema_rewrite_and_cloud_id_fill_witness :
    toolHandlerDispatch [⟨"A", "site", "R"⟩] ["cloudId", "query"]
        [("account", "A"), ("query", "x")]
      = .invoked [("query", "x"), ("cloudId", "R")] :=
  (c2_schema_rewrite_and_cloud_id_fill ⟨["cloudId", "query"],
      ["cloudId", "query"]⟩ [⟨"A", "site", "R"⟩] "A" ⟨"A", "site", "R"⟩
      ["cloudId", "query"] [("account", "A"), ("query", "x")]
      rfl (by decide) (by decide) (by decide) rfl (by decide) rfl).2.2.2

/-- C3: `callTool` retries exactly once on an authorization failure.
The retry predicate `shouldRefreshOnError` holds for an object error
exactly when its `code` is 401 or 403 or its lower-cased rendering
contains `"unauthorized"` or `"forbidden"` (a non-object thrown value,
which has no `code` or `message` property, is never retried).  When the
first attempt fails with such an error and the refresh-and-reconnect
succeeds, the invocation is retried exactly once with one reconnect and
the retry's outcome — success or failure — is returned; an error of any
other class propagates unchanged with no reconnect and no retry; a
first-attempt success performs no reconnect. -/
theorem c3_auth_failure_retries_once (code : Option Int) (text : String)
    (e : JsErr) (attempt2 : AttemptResult) (v : Nat) :
    (shouldRefreshOnError (.obj code text) = true ↔
      (code = some 401 ∨ code = some 403 ∨
        strContains text.toLower "unauthorized" = true ∨
        strContains text.toLower "forbidden" = true)) ∧
    (shouldRefreshOnError (.prim text) = false) ∧
    (shouldRefreshOnError e = true →
      callToolFlow (.err e) (.ok ()) attempt2 =
        ⟨match attempt2 with
          | .ok w => .ok w
          | .err e2 => .error e2, 1, 2⟩) ∧
    (shouldRefreshOnError e = false →
      callToolFlow (.err e) (.ok ()) attempt2 = ⟨.error e, 0, 1⟩) ∧
    callToolFlow (.ok v) (.ok ()) attempt2 = ⟨.ok v, 0, 1⟩ := by
  refine ⟨?_, rfl, ?_, ?_, rfl⟩
  · unfold shouldRefreshOnError
    by_cases hc : code = some 401 ∨ code = some 403
    · simp [hc]
      tauto
    · simp [hc]
      tauto
  · intro h
    cases attempt2 <;> simp [callToolFlow, h]
  · intro h
    simp [callToolFlow, h]

/-- C3 witness: a 401 first failure followed by a successful retry
returns the retry's result with exactly one reconnect. -/
theorem c3_auth_failure_retries_once_witness :
    callToolFlow (.err (.obj (some 401) "Error: unauthorized"))
        (.ok ()) (.ok 7) = ⟨.ok 7, 1, 2⟩ :=
  (c3_auth_failure_retries_once (some 401) "Error: unauthorized"
    (.obj (some 401) "Error: unauthorized") (.ok 7) 0).2.2.1 (by decide)

/-- Does a scheduler event start the scheduler with a positive
interval? -/
def isPosStart : SchedEvent → Bool
  | .start i => 0 < i
  | _ => false

/-- Is a scheduler event a `startBackgroundRefresh` call? -/
def isStartEvent : SchedEvent → Bool
  | .start _ => true
  | _ => false

/-- The scheduler's counting invariant: the number of ticks currently
executing is 1 while the `running` flag is set and 0 otherwise. -/
def schedInv (s : SchedState) : Prop :=
  s.active = if s.running then 1 else 0

/-- Every scheduler step preserves the counting invariant. -/
theorem schedStep_preserves_inv (s : SchedState) (e : SchedEvent)
    (h : schedInv s) : schedInv (schedStep s e) := by
  cases e with
  | start i =>
    by_cases h1 : s.timerSet
    · simpa [schedStep, h1] using h
    · by_cases h2 : i ≤ 0
      · simpa [schedStep, h1, h2] using h
      · simpa [schedStep, schedSchedule, h1, h2, schedInv] using h
  | timerFires =>
    by_cases h1 : s.timerPending
    · simpa [schedStep, h1, schedInv] using h
    · simpa [schedStep, h1] using h
  | runCallback =>
    by_cases hq : s.queuedRun
    · by_cases hs : s.stopped
      · simpa [schedStep, hq, hs, schedInv] using h
      · by_cases hr : s.running
        · simpa [schedStep, schedSchedule, hq, hs, hr, schedInv] using h
        · have h0 : s.active = 0 := by simpa [schedInv, hr] using h
          simp [schedStep, hq, hs, hr, schedInv, h0]
    · simpa [schedStep, hq] using h
  | tickCompletes =>
    by_cases hr : s.running
    · have h1 : s.active = 1 := by simpa [schedInv, hr] using h
      simp [schedStep, schedSchedule, hr, schedInv, h1]
    · simpa [schedStep, hr] using h
  | stop => simpa [schedStep, schedInv] using h

/-- The counting invariant holds along every scheduler trace. -/
theorem schedRun_preserves_inv (tr : List SchedEvent) (s : SchedState)
    (h : schedInv s) : schedInv (schedRun s tr) := by
  induction tr generalizing s with
  | nil => exact h
  | cons e tl ih => exact ih _ (schedStep_preserves_inv s e h)

/-- The quiescent states of a scheduler that was never started with a
positive interval. -/
def schedIdle (s : SchedState) : Prop :=
  s.timerSet = false ∧ s.timerPending = false ∧ s.queuedRun = false ∧
    s.running = false ∧ s.started = 0

/-- Without a positive-interval start, every event leaves a quiescent
scheduler quiescent. -/
theorem schedStep_preserves_idle (s : SchedState) (e : SchedEvent)
    (h : schedIdle s) (he : isPosStart e = false) :
    schedIdle (schedStep s e) := by
  obtain ⟨h1, h2, h3, h4, h5⟩ := h
  cases e with
  | start i =>
    have hi : i ≤ 0 := by
      by_contra hip
      simp [isPosStart] at he
      omega
    simp [schedStep, h1, hi, schedIdle, h2, h3, h4, h5]
  | timerFires => simp [schedStep, h2, schedIdle, h1, h3, h4, h5]
  | runCallback => simp [schedStep, h3, schedIdle, h1, h2, h4, h5]
  | tickCompletes => simp [schedStep, h4, schedIdle, h1, h2, h3, h5]
  | stop => simp [schedStep, schedIdle, h3, h4, h5]

/-- A never-positively-started scheduler stays quiescent along every
trace. -/
theorem schedRun_preserves_idle (tr : List SchedEvent) (s : SchedState)
    (h : schedIdle s) (he : ∀ e ∈ tr, isPosStart e = false) :
    schedIdle (schedRun s tr) := by
  induction tr generalizing s with
  | nil => exact h
  | cons e tl ih =>
    exact ih _ (schedStep_preserves_idle s e h (he e (by simp)))
      (fun e' he' => he e' (by simp [he']))

/-- After `stopBackgroundRefresh`, any event other than a new start
keeps the scheduler stopped and starts no tick. -/
theorem schedStep_stopped (s : SchedState) (e : SchedEvent)
    (hs : s.stopped = true) (he : isStartEvent e = false) :
    (schedStep s e).stopped = true ∧ (schedStep s e).started = s.started := by
  cases e with
  | start i => simp [isStartEvent] at he
  | timerFires => by_cases h1 : s.timerPending <;> simp [schedStep, hs, h1]
  | runCallback =>
    by_cases hq : s.queuedRun <;> simp [schedStep, hs, hq]
  | tickCompletes =>
    by_cases hr : s.running <;> simp [schedStep, schedSchedule, hs, hr]
  | stop => simp [schedStep]

/-- A stopped scheduler never starts another tick along any trace free
of new start calls. -/
theorem schedRun_stopped (tr : List SchedEvent) (s : SchedState)
    (hs : s.stopped = true) (he : ∀ e ∈ tr, isStartEvent e = false) :
    (schedRun s tr).stopped = true ∧ (schedRun s tr).started = s.started := by
  induction tr generalizing s with
  | nil => exact ⟨hs, rfl⟩
  | cons e tl ih =>
    obtain ⟨h1, h2⟩ := schedStep_stopped s e hs (he e (by simp))
    obtain ⟨h3, h4⟩ := ih _ h1 (fun e' he' => he e' (by simp [he']))
    exact ⟨h3, h4.trans h2⟩

/-- C7: the background refresh scheduler (i) never runs two ticks
concurrently — along every trace from the initial state at most one
tick is active, and a timer firing while a tick runs only reschedules,
leaving the started-tick count unchanged; (ii) started with a
non-positive interval it schedules nothing, so no tick ever runs; and
(iii) once `stop()` has been called, no further tick ever starts
(including a run callback already queued when `stop()` arrived), as
long as the scheduler is not started anew. -/
theorem c7_scheduler_no_overlap_stop (tr : List SchedEvent) (s : SchedState)
    (hq : s.queuedRun = true) (hns : s.stopped = false)
    (hr : s.running = true) :
    (schedRun schedInit tr).active ≤ 1 ∧
    (schedStep s .runCallback =
      { s with queuedRun := false, timerSet := true, timerPending := true }) ∧
    ((∀ e ∈ tr, isPosStart e = false) →
      (schedRun schedInit tr).started = 0) ∧
    (∀ s' : SchedState, s'.stopped = true →
      (∀ e ∈ tr, isStartEvent e = false) →
      (schedRun s' tr).started = s'.started) := by
  refine ⟨?_, ?_, ?_, ?_⟩
  · have h := schedRun_preserves_inv tr schedInit (by simp [schedInv, schedInit])
    unfold schedInv at h
    rw [h]
    split <;> omega
  · simp [schedStep, schedSchedule, hq, hns, hr]
  · intro he
    exact (schedRun_preserves_idle tr schedInit
      (by simp [schedIdle, schedInit]) he).2.2.2.2
  · intro s' hs' he
    exact (schedRun_stopped tr s' hs' he).2

/-- C7 witness: the theorem applied to a trace that starts the
scheduler, runs a tick, and a same-state reschedule scenario. -/
theorem c7_scheduler_no_overlap_stop_witness :
    (schedRun schedInit
        [.start 60000, .timerFires, .runCallback, .tickCompletes]).active ≤ 1 ∧
    (schedRun schedInit [.start 0, .timerFires, .runCallback]).started = 0 ∧
    (schedRun ⟨true, false, true, false, true, 0, 3⟩
        [.runCallback, .timerFires]).started = 3 := by
  have h := c7_scheduler_no_overlap_stop
    [.start 60000, .timerFires, .runCallback, .tickCompletes]
    ⟨true, false, true, true, false, 1, 1⟩ rfl rfl rfl
  refine ⟨h.1, ?_, ?_⟩
  · exact (c7_scheduler_no_overlap_stop [.start 0, .timerFires, .runCallback]
      ⟨true, false, true, true, false, 1, 1⟩ rfl rfl rfl).2.2.1 (by decide)
  · exact (c7_scheduler_no_overlap_stop [.runCallback, .timerFires]
      ⟨true, false, true, true, false, 1, 1⟩ rfl rfl
      rfl).2.2.2 ⟨true, false, true, false, true, 0, 3⟩ rfl (by decide)

/-- C8: `connectAll` always completes with one outcome per configured
account, each account's outcome computed from that account alone (a
failure or non-ok auth status of one account is recorded for it and
cannot affect any other); in particular, with three accounts whose
middle `connect` always fails, the call completes with accounts 1 and 3
connected. -/
theorem c8_connect_all_isolation (accounts : List AccountConn) (i : Nat) :
    (connectAll accounts).length = accounts.length ∧
    (connectAll accounts)[i]? = (accounts[i]?).map connectOne ∧
    connectAll [⟨"a1", .ok, true⟩, ⟨"a2", .ok, false⟩, ⟨"a3", .ok, true⟩]
      = [.connected, .failed, .connected] := by
  refine ⟨by simp [connectAll], by simp [connectAll], by decide⟩

/-- Repeated arrivals while an operation is in flight only add waiters:
they start no second underlying operation and keep the handle set. -/
theorem sfRun_arrive_inflight (c : Bool) (n : Nat) (s : SFState)
    (h1 : s.cachedSome = false) (h2 : s.inFlight = true) :
    sfRun c s (List.replicate n .arrive) = { s with waiters := s.waiters + n } := by
  induction n generalizing s with
  | zero => simp [sfRun]
  | succ m ih =>
    rw [List.replicate_succ]
    have hstep : sfStep c s .arrive = { s with waiters := s.waiters + 1 } := by
      simp [sfStep, h1, h2]
    calc sfRun c s (.arrive :: List.replicate m .arrive)
        = sfRun c (sfStep c s .arrive) (List.replicate m .arrive) := rfl
      _ = { s with waiters := s.waiters + 1 + m } := by
          rw [hstep]
          exact ih { s with waiters := s.waiters + 1 } h1 h2
      _ = { s with waiters := s.waiters + (m + 1) } := by
          simp [Nat.add_assoc, Nat.add_comm 1 m]

/-- C9: with nothing cached and nothing in flight, `n ≥ 1` concurrent
callers entering the memoized path perform exactly one underlying
operation (one Credential Store read for `ensureTokensLoaded`, where
`checkCache = true`; one token exchange for `refreshTokens`, where
`checkCache = false`), all `n` callers wait on that single in-flight
promise — hence all observe its one shared outcome — and the memoized
handle is still set after the arrivals; the handle is cleared by
nothing but a settle event. -/
theorem c9_single_flight_memoization (c : Bool) (n : Nat) (hn : 1 ≤ n)
    (s : SFState) (e : SFEvent) :
    sfRun c sfInit (List.replicate n .arrive) = ⟨false, true, 1, n⟩ ∧
    ((sfStep c s e).inFlight = false →
      s.inFlight = false ∨ ∃ b, e = .settle b) := by
  constructor
  · obtain ⟨m, rfl⟩ : ∃ m, n = m + 1 := ⟨n - 1, by omega⟩
    rw [List.replicate_succ]
    have hstep : sfStep c sfInit .arrive = ⟨false, true, 1, 1⟩ := by
      cases c <;> simp [sfStep, sfInit]
    calc sfRun c sfInit (.arrive :: List.replicate m .arrive)
        = sfRun c (sfStep c sfInit .arrive) (List.replicate m .arrive) := rfl
      _ = ⟨false, true, 1, 1 + m⟩ := by
          rw [hstep]
          exact sfRun_arrive_inflight c m ⟨false, true, 1, 1⟩ rfl rfl
      _ = ⟨false, true, 1, m + 1⟩ := by rw [Nat.add_comm]
  · intro h
    cases e with
    | arrive =>
      left
      by_cases hcc : c ∧ s.cachedSome
      · simpa [sfStep, hcc] using h
      · by_cases hf : s.inFlight
        · simp [sfStep, hcc, hf] at h
        · simp only [Bool.not_eq_true] at hf
          exact hf
    | settle b => exact Or.inr ⟨b, rfl⟩

/-- C9 witness: three concurrent arrivals on the load path make exactly
one store read, and an arrival alone never clears the handle. -/
theorem c9_single_flight_memoization_witness :
    sfRun true sfInit (List.replicate 3 .arrive) = ⟨false, true, 1, 3⟩ ∧
    ((sfStep true ⟨false, true, 1, 3⟩ .arrive).inFlight = false →
      (⟨false, true, 1, 3⟩ : SFState).inFlight = false ∨
        ∃ b, (SFEvent.arrive) = .settle b) :=
  ⟨(c9_single_flight_memoization true 3 (by decide)
      ⟨false, true, 1, 3⟩ .arrive).1,
   (c9_single_flight_memoization true 3 (by decide)
      ⟨false, true, 1, 3⟩ .arrive).2⟩

end MCPJira
